import Mathlib

/-!
Shallow embedding of the tenantiq tenant-lifecycle core:
the domain model (`internal/domain/tenant.go`), the FSM transition
validator (`internal/adapter/fsm/validator.go`), the SQLite-backed
repository (`internal/adapter/sqlite/repository.go`) and the
orchestration service (`internal/app/service.go`), together with
theorems settling the specification claims about them.
Timestamps are modelled as natural numbers (seconds); errors as an
explicit inductive type with a wrapping constructor mirroring Go's
`fmt.Errorf("...: %w", err)` and `errors.Is` / `errors.As` unwrapping.
-/

namespace Tenantiq

/-- Status represents the lifecycle state of a tenant (domain.Status). -/
inductive Status where
  | creating
  | active
  | suspended
  | deleting
  | deleted
deriving DecidableEq, Repr, Fintype

/-- Event represents an action that triggers a state transition (domain.Event). -/
inductive Event where
  | provision_complete
  | suspend
  | reactivate
  | delete
  | deletion_complete
deriving DecidableEq, Repr, Fintype

/-- The string value underlying each domain.Status constant. -/
def statusStr : Status → String
  | .creating => "creating"
  | .active => "active"
  | .suspended => "suspended"
  | .deleting => "deleting"
  | .deleted => "deleted"

/-- The string value underlying each domain.Event constant. -/
def eventStr : Event → String
  | .provision_complete => "provision_complete"
  | .suspend => "suspend"
  | .reactivate => "reactivate"
  | .delete => "delete"
  | .deletion_complete => "deletion_complete"

/-- Transition defines a valid state change (domain.Transition). -/
structure Transition where
  event : Event
  src : Status
  dst : Status
deriving DecidableEq, Repr

/-- Transitions defines all valid state changes in the tenant lifecycle
(domain.Transitions). -/
def Transitions : List Transition :=
  [ { event := .provision_complete, src := .creating, dst := .active },
    { event := .suspend, src := .active, dst := .suspended },
    { event := .reactivate, src := .suspended, dst := .active },
    { event := .delete, src := .active, dst := .deleting },
    { event := .delete, src := .suspended, dst := .deleting },
    { event := .deletion_complete, src := .deleting, dst := .deleted } ]

/-- findTransition (internal/app/service.go): first row of `Transitions`
matching the event and current status, if any. -/
def findTransition (current : Status) (event : Event) : Option Status :=
  (Transitions.find? (fun t => t.event == event && t.src == current)).map (fun t => t.dst)

/-- Go error values produced along the paths this core exercises:
the domain sentinel `ErrTenantNotFound`, the structured
`SlugConflictError` and `TransitionError`, looplab's
`UnknownEventError` passthrough, opaque external errors (storage or
publisher failures), and `fmt.Errorf("msg: %w", inner)` wrapping. -/
inductive GoErr where
  | tenantNotFound
  | slugConflict (slug : String)
  | transitionError (event : String) (current : String)
  | unknownEventErr (event : String)
  | extErr (msg : String)
  | wrapped (msg : String) (inner : GoErr)
deriving DecidableEq, Repr

/-- errors.Is(err, domain.ErrTenantNotFound): unwrap through `wrapped`. -/
def errIsNotFound : GoErr → Bool
  | .tenantNotFound => true
  | .wrapped _ e => errIsNotFound e
  | _ => false

/-- errors.As(err, *domain.SlugConflictError): unwrap through `wrapped`,
returning the carried slug when the chain reaches a SlugConflictError. -/
def errAsSlugConflict : GoErr → Option String
  | .slugConflict s => some s
  | .wrapped _ e => errAsSlugConflict e
  | _ => none

/-- errors.As(err, *domain.TransitionError): unwrap through `wrapped`,
returning the carried (event, current status) pair. -/
def errAsTransition : GoErr → Option (String × String)
  | .transitionError e c => some (e, c)
  | .wrapped _ e => errAsTransition e
  | _ => none

/-- looplab/fsm EventDesc: an event name, its source states, and the
destination state. -/
structure EventDesc where
  name : String
  src : List String
  dst : String
deriving DecidableEq, Repr

/-- buildEvents (internal/adapter/fsm/validator.go): convert
`Transitions` into EventDesc form, consolidating rows with the same
event and destination into one entry whose source list keeps table
order; entries appear in order of first occurrence of the
(event, dst) key. -/
def buildEvents : List EventDesc :=
  let keys : List (String × String) :=
    Transitions.foldl
      (fun acc t =>
        let k := (eventStr t.event, statusStr t.dst)
        if acc.contains k then acc else acc.concat k)
      []
  keys.map (fun k =>
    { name := k.1
      src := (Transitions.filter
          (fun t => eventStr t.event == k.1 && statusStr t.dst == k.2)).map
          (fun t => statusStr t.src)
      dst := k.2 })

/-- Insert into an association list with Go-map overwrite semantics. -/
def assocPut (m : List ((String × String) × String)) (k : String × String)
    (v : String) : List ((String × String) × String) :=
  if m.any (fun p => p.1 == k) then
    m.map (fun p => if p.1 == k then (k, v) else p)
  else m.concat (k, v)

/-- The transition map a looplab FSM builds from `buildEvents`:
for each EventDesc and each of its sources, map (name, src) to dst,
later entries overwriting earlier ones. -/
def fsmTransitions : List ((String × String) × String) :=
  buildEvents.foldl
    (fun m e => e.src.foldl (fun m2 s => assocPut m2 (e.name, s) e.dst) m)
    []

/-- The error cases of looplab fsm.Event relevant here. -/
inductive LoopErr where
  | invalidEvent (event : String) (state : String)
  | noTransition
  | unknownEvent (event : String)
deriving DecidableEq, Repr

/-- looplab fsm.Event on a machine currently in `current`: look the
(event, current) key up in the transition map; a hit whose destination
equals the current state yields NoTransitionError; a miss yields
InvalidEventError when some entry carries the event name and
UnknownEventError otherwise. -/
def loopFsmEvent (current : String) (event : String) : Except LoopErr String :=
  match (fsmTransitions.find? (fun p => p.1 == (event, current))).map (fun p => p.2) with
  | some dst => if dst == current then .error .noTransition else .ok dst
  | none =>
    if fsmTransitions.any (fun p => p.1.1 == event) then
      .error (.invalidEvent event current)
    else
      .error (.unknownEvent event)

/-- Validator.Apply (internal/adapter/fsm/validator.go): run a fresh
looplab FSM seeded with the current status; map InvalidEventError and
NoTransitionError to a domain TransitionError carrying the event and
current status; pass any other error through; on success return the
machine's new current state. -/
def Validator.Apply (current : Status) (event : Event) : Except GoErr String :=
  match loopFsmEvent (statusStr current) (eventStr event) with
  | .ok dst => .ok dst
  | .error (.invalidEvent _ _) =>
      .error (.transitionError (eventStr event) (statusStr current))
  | .error .noTransition =>
      .error (.transitionError (eventStr event) (statusStr current))
  | .error (.unknownEvent e) => .error (.unknownEventErr e)

/-- Tenant is the core domain entity (domain.Tenant); timestamps are
natural numbers standing for UTC instants. -/
structure Tenant where
  id : String
  name : String
  slug : String
  status : Status
  plan : String
  createdAt : Nat
  updatedAt : Nat
deriving DecidableEq, Repr

/-- NewTenant (domain.NewTenant): a tenant in the initial creating state
with created_at = updated_at = now; `now` stands for time.Now().UTC(). -/
def NewTenant (id name slug plan : String) (now : Nat) : Tenant :=
  { id := id, name := name, slug := slug, status := .creating, plan := plan,
    createdAt := now, updatedAt := now }

/-- ListFilter (domain.ListFilter): optional status plus limit/offset,
which are Go ints. -/
structure ListFilter where
  status : Option Status
  limit : Int
  offset : Int

/-- The tenants table: the rows of the SQLite database in insertion
order. The schema (001_create_tenants.sql) makes id a primary key and
slug unique. -/
abbrev Db := List Tenant

/-- sqlite TenantRepository.Create: INSERT fails with a UNIQUE
constraint violation when the id (primary key) or the slug (unique)
already occurs, which isUniqueViolation converts to a
SlugConflictError carrying the new tenant's slug; otherwise the row is
appended. -/
def sqliteCreate (db : Db) (t : Tenant) : Except GoErr Db :=
  if db.any (fun u => u.id == t.id || u.slug == t.slug) then
    .error (.slugConflict t.slug)
  else
    .ok (db.concat t)

/-- sqlite TenantRepository.GetByID / scanTenant: the row with the
given id, or ErrTenantNotFound when the query returns no row. -/
def sqliteGetByID (db : Db) (id : String) : Except GoErr Tenant :=
  match db.find? (fun t => t.id == id) with
  | some t => .ok t
  | none => .error .tenantNotFound

/-- sqlite TenantRepository.GetBySlug: the row with the given slug, or
ErrTenantNotFound when the query returns no row. -/
def sqliteGetBySlug (db : Db) (slug : String) : Except GoErr Tenant :=
  match db.find? (fun t => t.slug == slug) with
  | some t => .ok t
  | none => .error .tenantNotFound

/-- sqlite TenantRepository.Update: UPDATE ... WHERE id = t.id. When no
row has the id, zero rows are affected and ErrTenantNotFound is
returned; when the new slug collides with a different row the UNIQUE
constraint fires and a SlugConflictError is returned; otherwise the
matching row's name, slug, status and plan are set from t and its
updated_at is set to now (time.Now() inside Update); created_at and id
are not touched. The per-row effect is split out as applyUpdate. -/
def applyUpdate (t : Tenant) (now : Nat) (u : Tenant) : Tenant :=
  if u.id == t.id then
    { u with name := t.name, slug := t.slug, status := t.status,
             plan := t.plan, updatedAt := now }
  else u

def sqliteUpdate (db : Db) (t : Tenant) (now : Nat) : Except GoErr Db :=
  if db.any (fun u => u.id == t.id) then
    if db.any (fun u => u.id != t.id && u.slug == t.slug) then
      .error (.slugConflict t.slug)
    else
      .ok (db.map (applyUpdate t now))
  else
    .error .tenantNotFound

/-- ORDER BY created_at DESC as a relation: a precedes b. -/
def byCreatedDesc (a b : Tenant) : Prop := b.createdAt ≤ a.createdAt

instance : DecidableRel byCreatedDesc := fun a b => Nat.decLe b.createdAt a.createdAt

instance : IsTotal Tenant byCreatedDesc :=
  ⟨fun a b => Nat.le_total b.createdAt a.createdAt⟩

instance : IsTrans Tenant byCreatedDesc :=
  ⟨fun _ _ _ hab hbc => Nat.le_trans hbc hab⟩

/-- The WHERE clause of sqlite TenantRepository.List: narrow by status
exactly when the filter carries one. -/
def sqliteRows (db : Db) (f : ListFilter) : List Tenant :=
  match f.status with
  | some s => db.filter (fun t => t.status == s)
  | none => db

/-- The LIMIT/OFFSET tail of sqlite TenantRepository.List, giving the
semantics of the emitted clauses for the queries SQLite accepts:
OFFSET is emitted only when filter.Offset > 0 and LIMIT only when
filter.Limit > 0; per SQL semantics the offset rows are skipped before
the limit applies. A query that emits OFFSET without LIMIT never
reaches this paging semantics: SQLite's grammar rejects it (see
sqliteListE). -/
def sqlitePage (l : List Tenant) (f : ListFilter) : List Tenant :=
  if 0 < f.limit then
    (if 0 < f.offset then l.drop f.offset.toNat else l).take f.limit.toNat
  else
    if 0 < f.offset then l.drop f.offset.toNat else l

/-- The rows an accepted List query returns: WHERE status, ORDER BY
created_at DESC, then LIMIT/OFFSET. -/
def sqliteList (db : Db) (f : ListFilter) : List Tenant :=
  sqlitePage (List.insertionSort byCreatedDesc (sqliteRows db f)) f

/-- sqlite TenantRepository.List. The method builds the SQL text
incrementally: WHERE status when the filter has one, ORDER BY
created_at DESC, then a LIMIT clause only when filter.Limit > 0 and an
OFFSET clause only when filter.Offset > 0. When a positive offset is
given without a positive limit the built query places OFFSET with no
LIMIT, which SQLite's grammar rejects ("near OFFSET: syntax error");
QueryContext surfaces that and List wraps it as
"listing tenants: %w". Any accepted query returns the sorted, paged
rows; an empty row set is a success. -/
def sqliteListE (db : Db) (f : ListFilter) : Except GoErr (List Tenant) :=
  if 0 < f.offset ∧ ¬ 0 < f.limit then
    .error (.wrapped "listing tenants" (.extErr "near OFFSET: syntax error"))
  else
    .ok (sqliteList db f)

/-- The repository port (domain.TenantRepository) over a storage state
σ: each operation reads the state and, for mutations, returns the new
state; Update takes the wall-clock instant it runs at. -/
structure Repo (σ : Type) where
  create : σ → Tenant → Except GoErr σ
  getByID : σ → String → Except GoErr Tenant
  getBySlug : σ → String → Except GoErr Tenant
  listT : σ → ListFilter → Except GoErr (List Tenant)
  update : σ → Tenant → Nat → Except GoErr σ

/-- The SQLite-backed repository adapter as an instance of the port. -/
def sqliteRepo : Repo Db :=
  { create := sqliteCreate
    getByID := sqliteGetByID
    getBySlug := sqliteGetBySlug
    listT := sqliteListE
    update := sqliteUpdate }

/-- sqliteRepo whose GetBySlug fails with the given error: models a
pre-check lookup that misses because of a lost race or a storage
failure, while the other operations still hit the real store. -/
def withLookupErr (e : GoErr) : Repo Db :=
  { sqliteRepo with getBySlug := fun _ _ => .error e }

/-- A publisher behaviour: none means Publish succeeded, some e means
it failed with e (domain.EventPublisher). -/
abbrev Publisher := Event → Tenant → Option GoErr

/-- The tail of TenantService.Create after the slug pre-check
(internal/app/service.go): construct the tenant via NewTenant, persist
it via the repository's create (wrapping any error as
"creating tenant: %w"), then publish a provision_complete event
carrying the snapshot (wrapping any error as
"publishing creation event: %w" — the stored tenant is not rolled
back); on success return the tenant. The third component of the result
is the list of events actually delivered. -/
def createAfterPrecheck {σ : Type} (R : Repo σ) (db : σ) (pub : Publisher)
    (name slug plan id : String) (now : Nat) :
    Except GoErr Tenant × σ × List (Event × Tenant) :=
  let tenant := NewTenant id name slug plan now
  match R.create db tenant with
  | .error e => (.error (.wrapped "creating tenant" e), db, [])
  | .ok db1 =>
    match pub .provision_complete tenant with
    | some e => (.error (.wrapped "publishing creation event" e), db1, [])
    | none => (.ok tenant, db1, [(Event.provision_complete, tenant)])

/-- TenantService.Create (internal/app/service.go): look the slug up;
if the lookup succeeds, fail with SlugConflictError and do nothing
further; on any lookup error proceed with the generated id (the
caller-supplied `id` models generateID's random output). -/
def serviceCreate {σ : Type} (R : Repo σ) (db : σ) (pub : Publisher)
    (name slug plan id : String) (now : Nat) :
    Except GoErr Tenant × σ × List (Event × Tenant) :=
  match R.getBySlug db slug with
  | .ok _ => (.error (.slugConflict slug), db, [])
  | .error _ => createAfterPrecheck R db pub name slug plan id now

/-- TenantService.GetByID: pure delegation to the repository port. -/
def serviceGetByID {σ : Type} (R : Repo σ) (db : σ) (id : String) :
    Except GoErr Tenant :=
  R.getByID db id

/-- TenantService.List: pure delegation to the repository port. -/
def serviceList {σ : Type} (R : Repo σ) (db : σ) (f : ListFilter) :
    Except GoErr (List Tenant) :=
  R.listT db f

/-- TenantService.Transition (internal/app/service.go): load the tenant
by id, propagating the load error unchanged; look the (status, event)
pair up with findTransition, failing with a TransitionError carrying
the event and current status when absent; set the status to the
destination (updated_at is not touched here); persist via the
repository's update at instant now (wrapping errors as
"updating tenant: %w"); publish the event with the updated snapshot
(wrapping errors as "publishing event %q: %w", without rolling the
update back); return the updated local tenant. -/
def serviceTransition {σ : Type} (R : Repo σ) (db : σ) (pub : Publisher)
    (id : String) (event : Event) (now : Nat) :
    Except GoErr Tenant × σ × List (Event × Tenant) :=
  match R.getByID db id with
  | .error e => (.error e, db, [])
  | .ok tenant =>
    match findTransition tenant.status event with
    | none =>
        (.error (.transitionError (eventStr event) (statusStr tenant.status)), db, [])
    | some dst =>
      let tenant1 := { tenant with status := dst }
      match R.update db tenant1 now with
      | .error e => (.error (.wrapped "updating tenant" e), db, [])
      | .ok db1 =>
        match pub event tenant1 with
        | some e =>
            (.error (.wrapped ("publishing event " ++ eventStr event) e), db1, [])
        | none => (.ok tenant1, db1, [(event, tenant1)])

instance {ε α : Type} [DecidableEq ε] [DecidableEq α] : DecidableEq (Except ε α) :=
  fun x y =>
  match x, y with
  | .ok a, .ok b => decidable_of_iff (a = b) (by simp)
  | .error e, .error f => decidable_of_iff (e = f) (by simp)
  | .ok _, .error _ => isFalse (fun h => Except.noConfusion h)
  | .error _, .ok _ => isFalse (fun h => Except.noConfusion h)

/-- C1: for every currentStatus and event from the closed Status and Event
sets, both the fsm Validator.Apply and the service's findTransition return
the unique nextStatus dst such that (event, currentStatus, dst) is a row of
the Transitions table, with no error; for every pair with no matching
row — including every event applied to the terminal deleted status — they
fail with a TransitionError carrying that event and that currentStatus. -/
theorem C1_transition_validation_total :
    (∀ (s : Status) (e : Event),
      (∀ dst : Status, (Transition.mk e s dst) ∈ Transitions →
        findTransition s e = some dst ∧ Validator.Apply s e = .ok (statusStr dst)) ∧
      ((∀ dst : Status, (Transition.mk e s dst) ∉ Transitions) →
        findTransition s e = none ∧
        Validator.Apply s e = .error (.transitionError (eventStr e) (statusStr s)))) ∧
    (∀ e : Event,
      findTransition .deleted e = none ∧
      Validator.Apply .deleted e = .error (.transitionError (eventStr e) "deleted")) := by
  decide

/-- Witness for C1 at concrete inputs: provision_complete succeeds from
creating, suspend is rejected from creating, no event leaves deleted. -/
theorem C1_transition_validation_total_witness :
    findTransition .creating .provision_complete = some .active ∧
    Validator.Apply .creating .provision_complete = .ok "active" ∧
    findTransition .creating .suspend = none ∧
    Validator.Apply .creating .suspend = .error (.transitionError "suspend" "creating") ∧
    findTransition .deleted .reactivate = none := by
  refine ⟨?_, ?_, ?_, ?_, ?_⟩
  · exact ((C1_transition_validation_total.1 .creating .provision_complete).1 .active
      (by decide)).1
  · exact ((C1_transition_validation_total.1 .creating .provision_complete).1 .active
      (by decide)).2
  · exact ((C1_transition_validation_total.1 .creating .suspend).2 (by decide)).1
  · exact ((C1_transition_validation_total.1 .creating .suspend).2 (by decide)).2
  · exact (C1_transition_validation_total.2 .reactivate).1

/-- C8: the Transitions table has at most one row per (event, src) pair,
and the fsm adapter's compact grouped representation built by buildEvents
agrees with a direct scan of the table on every (status, event) pair:
both produce the same next status, or both reject. -/
theorem C8_table_deterministic_grouping_equiv :
    (∀ t1 ∈ Transitions, ∀ t2 ∈ Transitions,
        t1.event = t2.event → t1.src = t2.src → t1.dst = t2.dst) ∧
    (∀ (s : Status) (e : Event),
      Validator.Apply s e =
        match findTransition s e with
        | some d => .ok (statusStr d)
        | none => .error (.transitionError (eventStr e) (statusStr s))) := by
  decide

/-- Witness for C8: determinism applied at the delete-from-active row, and
the representations agree at (suspended, delete). -/
theorem C8_table_deterministic_grouping_equiv_witness :
    (Transition.mk Event.delete Status.active Status.deleting).dst =
      (Transition.mk Event.delete Status.active Status.deleting).dst ∧
    Validator.Apply Status.suspended Event.delete =
      (match findTransition Status.suspended Event.delete with
       | some d => .ok (statusStr d)
       | none => .error (.transitionError (eventStr Event.delete)
           (statusStr Status.suspended))) := by
  constructor
  · exact C8_table_deterministic_grouping_equiv.1 _ (by decide) _ (by decide) rfl rfl
  · exact C8_table_deterministic_grouping_equiv.2 Status.suspended Event.delete

/-- A successful sqlite GetByID is exactly a successful find? on the id. -/
theorem sqliteGetByID_ok_find? {db : Db} {id : String} {t : Tenant}
    (h : sqliteGetByID db id = .ok t) :
    db.find? (fun u => u.id == id) = some t := by
  unfold sqliteGetByID at h
  cases hf : db.find? (fun u => u.id == id) with
  | some u =>
    rw [hf] at h
    simp only [Except.ok.injEq] at h
    exact congrArg some h
  | none =>
    rw [hf] at h
    simp at h

/-- When the id is present and the slug collides with no other row,
sqlite Update succeeds and rewrites exactly the matching rows. -/
theorem sqliteUpdate_ok_of (db : Db) (t : Tenant) (now : Nat)
    (h1 : db.any (fun u => u.id == t.id) = true)
    (h2 : db.any (fun u => u.id != t.id && u.slug == t.slug) = false) :
    sqliteUpdate db t now = .ok (db.map (applyUpdate t now)) := by
  unfold sqliteUpdate
  simp [h1, h2]

/-- GetByID after an update: the row found is the updated image of the
row found before, because applyUpdate never changes ids. -/
theorem sqliteGetByID_map_applyUpdate (db : Db) (id : String) (tenant t1 : Tenant)
    (now : Nat) (hfind : db.find? (fun u => u.id == id) = some tenant) :
    sqliteGetByID (db.map (applyUpdate t1 now)) id = .ok (applyUpdate t1 now tenant) := by
  unfold sqliteGetByID
  rw [List.find?_map]
  have hcomp : ((fun u : Tenant => u.id == id) ∘ applyUpdate t1 now)
      = fun u : Tenant => u.id == id := by
    funext u
    by_cases h : (u.id == t1.id) = true <;> simp [applyUpdate, Function.comp, h]
  rw [hcomp, hfind]
  simp

/-- C7: for every id absent from the repository and every event (valid or
not), Transition fails with NotFoundError, performs no persistence and no
publication, and GetByID on the same absent id fails with NotFoundError. -/
theorem C7_absent_id_not_found
    (db : Db) (pub : Publisher) (id : String) (event : Event) (now : Nat)
    (habs : ∀ u ∈ db, u.id ≠ id) :
    sqliteGetByID db id = .error .tenantNotFound ∧
    serviceTransition sqliteRepo db pub id event now =
      (.error .tenantNotFound, db, []) ∧
    serviceGetByID sqliteRepo db id = .error .tenantNotFound ∧
    errIsNotFound .tenantNotFound = true := by
  have hfind : db.find? (fun u => u.id == id) = none :=
    List.find?_eq_none.mpr (fun u hu => by simpa using habs u hu)
  have hget : sqliteGetByID db id = .error .tenantNotFound := by
    unfold sqliteGetByID
    rw [hfind]
  refine ⟨hget, ?_, hget, rfl⟩
  unfold serviceTransition
  simp [sqliteRepo, hget]

/-- Witness for C7: the empty store, id t1, an event that is valid from
some other state (suspend). -/
theorem C7_absent_id_not_found_witness :
    sqliteGetByID [] "t1" = .error .tenantNotFound ∧
    serviceTransition sqliteRepo [] (fun _ _ => none) "t1" Event.suspend 3 =
      (.error .tenantNotFound, [], []) ∧
    serviceGetByID sqliteRepo [] "t1" = .error .tenantNotFound ∧
    errIsNotFound .tenantNotFound = true :=
  C7_absent_id_not_found [] (fun _ _ => none) "t1" Event.suspend 3 (by simp)

/-- C5: for a stored tenant and an event not valid from its current
status, Transition fails with the bare TransitionError carrying the event
and current status, changes no state and publishes nothing, so the stored
tenant is exactly as it was. -/
theorem C5_invalid_event_no_mutation
    (db : Db) (pub : Publisher) (id : String) (event : Event) (now : Nat)
    (tenant : Tenant)
    (hget : sqliteGetByID db id = .ok tenant)
    (htr : findTransition tenant.status event = none) :
    serviceTransition sqliteRepo db pub id event now =
      (.error (.transitionError (eventStr event) (statusStr tenant.status)), db, []) ∧
    errAsTransition (.transitionError (eventStr event) (statusStr tenant.status)) =
      some (eventStr event, statusStr tenant.status) ∧
    sqliteGetByID db id = .ok tenant := by
  refine ⟨?_, rfl, hget⟩
  unfold serviceTransition
  simp [sqliteRepo, hget, htr]

/-- Witness for C5: a creating tenant rejects suspend and is untouched. -/
theorem C5_invalid_event_no_mutation_witness :
    serviceTransition sqliteRepo [NewTenant "t1" "Acme" "acme" "free" 0]
        (fun _ _ => none) "t1" Event.suspend 7 =
      (.error (.transitionError "suspend" "creating"),
       [NewTenant "t1" "Acme" "acme" "free" 0], []) ∧
    errAsTransition (.transitionError "suspend" "creating") =
      some ("suspend", "creating") ∧
    sqliteGetByID [NewTenant "t1" "Acme" "acme" "free" 0] "t1" =
      .ok (NewTenant "t1" "Acme" "acme" "free" 0) :=
  C5_invalid_event_no_mutation [NewTenant "t1" "Acme" "acme" "free" 0]
    (fun _ _ => none) "t1" Event.suspend 7 (NewTenant "t1" "Acme" "acme" "free" 0)
    (by decide) (by decide)

/-- The frame conditions C2 asserts, for previous snapshot `prev`,
returned tenant `ret` and stored record `st`: status set to the table's
destination, updated_at not gone backwards, id, slug and created_at
unchanged. -/
def transitionFrameOK (prev ret st : Tenant) (dst : Status) : Prop :=
  ret.status = dst ∧ ret.id = prev.id ∧ ret.slug = prev.slug ∧
  ret.createdAt = prev.createdAt ∧ prev.updatedAt ≤ ret.updatedAt ∧
  st.status = dst ∧ st.id = prev.id ∧ st.slug = prev.slug ∧
  st.createdAt = prev.createdAt ∧ prev.updatedAt ≤ st.updatedAt

/-- C2: for a stored tenant and an event valid from its current status, a
successful Transition returns the tenant with the table's destination
status, its updated_at at least the previous one, and id, slug and
created_at unchanged; the stored record likewise carries the destination
status, an updated_at refreshed to the update instant (hence at least the
previous one), and unchanged id, slug and created_at. The clock hypothesis
says the update instant is not before the tenant's previous updated_at;
the slug hypothesis is the schema's slug uniqueness. -/
theorem C2_transition_updates_status_and_frame
    (db : Db) (pub : Publisher) (id : String) (event : Event) (now : Nat)
    (tenant : Tenant) (dst : Status)
    (hget : sqliteGetByID db id = .ok tenant)
    (htr : findTransition tenant.status event = some dst)
    (hpub : pub event { tenant with status := dst } = none)
    (hclock : tenant.updatedAt ≤ now)
    (hslug : ∀ u ∈ db, u.slug = tenant.slug → u.id = tenant.id) :
    ∃ db',
      serviceTransition sqliteRepo db pub id event now =
        (.ok { tenant with status := dst }, db',
         [(event, { tenant with status := dst })]) ∧
      sqliteGetByID db' id = .ok { tenant with status := dst, updatedAt := now } ∧
      transitionFrameOK tenant { tenant with status := dst }
        { tenant with status := dst, updatedAt := now } dst := by
  have hfind := sqliteGetByID_ok_find? hget
  have hid : tenant.id = id := by simpa using List.find?_some hfind
  have hmem : tenant ∈ db := List.mem_of_find?_eq_some hfind
  have hany1 : db.any (fun u => u.id == ({ tenant with status := dst } : Tenant).id)
      = true :=
    List.any_eq_true.mpr ⟨tenant, hmem, by simp⟩
  have hany2 : db.any (fun u =>
      u.id != ({ tenant with status := dst } : Tenant).id &&
      u.slug == ({ tenant with status := dst } : Tenant).slug) = false := by
    refine List.any_eq_false.mpr (fun u hu hpu => ?_)
    simp only [Bool.and_eq_true, bne_iff_ne, beq_iff_eq] at hpu
    exact hpu.1 (hslug u hu hpu.2)
  refine ⟨db.map (applyUpdate { tenant with status := dst } now), ?_, ?_,
      rfl, rfl, rfl, rfl, le_rfl, rfl, rfl, rfl, rfl, hclock⟩
  · unfold serviceTransition
    simp only [sqliteRepo, hget, htr,
      sqliteUpdate_ok_of db { tenant with status := dst } now hany1 hany2, hpub]
  · rw [sqliteGetByID_map_applyUpdate db id tenant { tenant with status := dst } now
      hfind]
    have happ : applyUpdate { tenant with status := dst } now tenant
        = { tenant with status := dst, updatedAt := now } := by
      simp [applyUpdate]
    rw [happ]

/-- Witness for C2: provision_complete on a stored creating tenant at
instant 5 activates it, refreshing the stored updated_at. -/
theorem C2_transition_updates_status_and_frame_witness :
    sqliteGetByID [NewTenant "t1" "Acme" "acme" "free" 0] "t1" =
      .ok (NewTenant "t1" "Acme" "acme" "free" 0) ∧
    findTransition (NewTenant "t1" "Acme" "acme" "free" 0).status
        Event.provision_complete = some Status.active ∧
    (∃ db',
      serviceTransition sqliteRepo [NewTenant "t1" "Acme" "acme" "free" 0]
          (fun _ _ => none) "t1" Event.provision_complete 5 =
        (.ok { NewTenant "t1" "Acme" "acme" "free" 0 with status := Status.active },
         db',
         [(Event.provision_complete,
           { NewTenant "t1" "Acme" "acme" "free" 0 with status := Status.active })]) ∧
      sqliteGetByID db' "t1" =
        .ok { NewTenant "t1" "Acme" "acme" "free" 0 with
              status := Status.active, updatedAt := 5 } ∧
      transitionFrameOK (NewTenant "t1" "Acme" "acme" "free" 0)
        { NewTenant "t1" "Acme" "acme" "free" 0 with status := Status.active }
        { NewTenant "t1" "Acme" "acme" "free" 0 with
          status := Status.active, updatedAt := 5 } Status.active) :=
  ⟨by decide, by decide,
   C2_transition_updates_status_and_frame _ _ _ _ _ _ _ (by decide) (by decide) rfl
     (by decide) (by decide)⟩

/-- When no stored row carries the slug, the pre-check lookup misses with
ErrTenantNotFound. -/
theorem sqliteGetBySlug_none (db : Db) (slug : String)
    (h : ∀ u ∈ db, u.slug ≠ slug) :
    sqliteGetBySlug db slug = .error .tenantNotFound := by
  unfold sqliteGetBySlug
  rw [List.find?_eq_none.mpr (fun u hu => by simpa using h u hu)]

/-- When neither the id nor the slug collides, sqlite Create appends the
row. -/
theorem sqliteCreate_ok (db : Db) (t : Tenant)
    (hs : ∀ u ∈ db, u.slug ≠ t.slug) (hi : ∀ u ∈ db, u.id ≠ t.id) :
    sqliteCreate db t = .ok (db.concat t) := by
  unfold sqliteCreate
  have hany : db.any (fun u => u.id == t.id || u.slug == t.slug) = false :=
    List.any_eq_false.mpr (fun u hu => by
      simp only [Bool.or_eq_true, beq_iff_eq]
      rintro (h | h)
      exacts [hi u hu h, hs u hu h])
  simp [hany]

/-- A freshly appended row is found by GetByID when its id was absent. -/
theorem sqliteGetByID_concat_self (db : Db) (t : Tenant)
    (hi : ∀ u ∈ db, u.id ≠ t.id) :
    sqliteGetByID (db.concat t) t.id = .ok t := by
  unfold sqliteGetByID
  rw [List.concat_eq_append, List.find?_append,
    List.find?_eq_none.mpr (fun u hu => by simpa using hi u hu)]
  simp

/-- C6: a successful Create returns a tenant carrying the supplied name,
slug and plan, the generated id, status creating and created_at equal to
updated_at; the new row is persisted, exactly one provision_complete
event carrying the snapshot is delivered, and the returned value equals
the record GetByID retrieves afterwards. -/
theorem C6_create_success
    (db : Db) (pub : Publisher) (name slug plan id : String) (now : Nat)
    (hslug : ∀ u ∈ db, u.slug ≠ slug)
    (hid : ∀ u ∈ db, u.id ≠ id)
    (hpub : pub .provision_complete (NewTenant id name slug plan now) = none) :
    serviceCreate sqliteRepo db pub name slug plan id now =
      (.ok (NewTenant id name slug plan now),
       db.concat (NewTenant id name slug plan now),
       [(Event.provision_complete, NewTenant id name slug plan now)]) ∧
    (NewTenant id name slug plan now).name = name ∧
    (NewTenant id name slug plan now).slug = slug ∧
    (NewTenant id name slug plan now).plan = plan ∧
    (NewTenant id name slug plan now).id = id ∧
    (NewTenant id name slug plan now).status = .creating ∧
    (NewTenant id name slug plan now).createdAt
      = (NewTenant id name slug plan now).updatedAt ∧
    sqliteGetByID (db.concat (NewTenant id name slug plan now)) id =
      .ok (NewTenant id name slug plan now) := by
  have hbs := sqliteGetBySlug_none db slug hslug
  have hcr := sqliteCreate_ok db (NewTenant id name slug plan now)
    (fun u hu => hslug u hu) (fun u hu => hid u hu)
  have hgb := sqliteGetByID_concat_self db (NewTenant id name slug plan now)
    (fun u hu => hid u hu)
  refine ⟨?_, rfl, rfl, rfl, rfl, rfl, rfl, hgb⟩
  unfold serviceCreate createAfterPrecheck
  simp only [sqliteRepo, hbs, hcr, hpub]

/-- Witness for C6: creating Acme on an empty store at instant 0. -/
theorem C6_create_success_witness :
    serviceCreate sqliteRepo [] (fun _ _ => none) "Acme" "acme" "free" "id1" 0 =
      (.ok (NewTenant "id1" "Acme" "acme" "free" 0),
       List.concat [] (NewTenant "id1" "Acme" "acme" "free" 0),
       [(Event.provision_complete, NewTenant "id1" "Acme" "acme" "free" 0)]) ∧
    (NewTenant "id1" "Acme" "acme" "free" 0).name = "Acme" ∧
    (NewTenant "id1" "Acme" "acme" "free" 0).slug = "acme" ∧
    (NewTenant "id1" "Acme" "acme" "free" 0).plan = "free" ∧
    (NewTenant "id1" "Acme" "acme" "free" 0).id = "id1" ∧
    (NewTenant "id1" "Acme" "acme" "free" 0).status = .creating ∧
    (NewTenant "id1" "Acme" "acme" "free" 0).createdAt
      = (NewTenant "id1" "Acme" "acme" "free" 0).updatedAt ∧
    sqliteGetByID (List.concat [] (NewTenant "id1" "Acme" "acme" "free" 0)) "id1" =
      .ok (NewTenant "id1" "Acme" "acme" "free" 0) :=
  C6_create_success [] (fun _ _ => none) "Acme" "acme" "free" "id1" 0
    (by simp) (by simp) rfl

/-- C4: when persistence succeeds and publication then fails, Create and
Transition fail with the wrapped publish error (the code's PublishError),
but the committed change is not rolled back: the tenant stays persisted
and GetByID retrieves it with the already-persisted status — creating for
Create, the table's destination (with refreshed updated_at) for
Transition. -/
theorem C4_publish_failure_not_rolled_back :
    (∀ (db : Db) (pub : Publisher) (name slug plan id : String) (now : Nat)
        (pe : GoErr),
      (∀ u ∈ db, u.slug ≠ slug) → (∀ u ∈ db, u.id ≠ id) →
      pub .provision_complete (NewTenant id name slug plan now) = some pe →
      serviceCreate sqliteRepo db pub name slug plan id now =
        (.error (.wrapped "publishing creation event" pe),
         db.concat (NewTenant id name slug plan now), []) ∧
      sqliteGetByID (db.concat (NewTenant id name slug plan now)) id =
        .ok (NewTenant id name slug plan now) ∧
      (NewTenant id name slug plan now).status = .creating) ∧
    (∀ (db : Db) (pub : Publisher) (id : String) (event : Event) (now : Nat)
        (tenant : Tenant) (dst : Status) (pe : GoErr),
      sqliteGetByID db id = .ok tenant →
      findTransition tenant.status event = some dst →
      pub event { tenant with status := dst } = some pe →
      (∀ u ∈ db, u.slug = tenant.slug → u.id = tenant.id) →
      serviceTransition sqliteRepo db pub id event now =
        (.error (.wrapped ("publishing event " ++ eventStr event) pe),
         db.map (applyUpdate { tenant with status := dst } now), []) ∧
      sqliteGetByID (db.map (applyUpdate { tenant with status := dst } now)) id =
        .ok { tenant with status := dst, updatedAt := now }) := by
  constructor
  · intro db pub name slug plan id now pe hslug hid hpub
    have hbs := sqliteGetBySlug_none db slug hslug
    have hcr := sqliteCreate_ok db (NewTenant id name slug plan now)
      (fun u hu => hslug u hu) (fun u hu => hid u hu)
    have hgb := sqliteGetByID_concat_self db (NewTenant id name slug plan now)
      (fun u hu => hid u hu)
    refine ⟨?_, hgb, rfl⟩
    unfold serviceCreate createAfterPrecheck
    simp only [sqliteRepo, hbs, hcr, hpub]
  · intro db pub id event now tenant dst pe hget htr hpub hslug
    have hfind := sqliteGetByID_ok_find? hget
    have hmem : tenant ∈ db := List.mem_of_find?_eq_some hfind
    have hany1 : db.any (fun u => u.id == ({ tenant with status := dst } : Tenant).id)
        = true :=
      List.any_eq_true.mpr ⟨tenant, hmem, by simp⟩
    have hany2 : db.any (fun u =>
        u.id != ({ tenant with status := dst } : Tenant).id &&
        u.slug == ({ tenant with status := dst } : Tenant).slug) = false := by
      refine List.any_eq_false.mpr (fun u hu hpu => ?_)
      simp only [Bool.and_eq_true, bne_iff_ne, beq_iff_eq] at hpu
      exact hpu.1 (hslug u hu hpu.2)
    constructor
    · unfold serviceTransition
      simp only [sqliteRepo, hget, htr,
        sqliteUpdate_ok_of db { tenant with status := dst } now hany1 hany2, hpub]
    · rw [sqliteGetByID_map_applyUpdate db id tenant { tenant with status := dst }
        now hfind]
      have happ : applyUpdate { tenant with status := dst } now tenant
          = { tenant with status := dst, updatedAt := now } := by
        simp [applyUpdate]
      rw [happ]

/-- Witness for C4: a failing publisher on an empty store still leaves
the created tenant retrievable, and a failing publisher after a valid
provision_complete transition leaves the activated tenant stored. -/
theorem C4_publish_failure_not_rolled_back_witness :
    (serviceCreate sqliteRepo [] (fun _ _ => some (.extErr "queue down"))
        "Acme" "acme" "free" "id1" 0 =
      (.error (.wrapped "publishing creation event" (.extErr "queue down")),
       List.concat [] (NewTenant "id1" "Acme" "acme" "free" 0), []) ∧
     sqliteGetByID (List.concat [] (NewTenant "id1" "Acme" "acme" "free" 0)) "id1" =
       .ok (NewTenant "id1" "Acme" "acme" "free" 0) ∧
     (NewTenant "id1" "Acme" "acme" "free" 0).status = .creating) ∧
    (serviceTransition sqliteRepo [NewTenant "id1" "Acme" "acme" "free" 0]
        (fun _ _ => some (.extErr "queue down")) "id1" Event.provision_complete 4 =
      (.error (.wrapped ("publishing event " ++ eventStr Event.provision_complete)
        (.extErr "queue down")),
       List.map (applyUpdate
         { NewTenant "id1" "Acme" "acme" "free" 0 with status := Status.active } 4)
         [NewTenant "id1" "Acme" "acme" "free" 0], []) ∧
     sqliteGetByID (List.map (applyUpdate
         { NewTenant "id1" "Acme" "acme" "free" 0 with status := Status.active } 4)
         [NewTenant "id1" "Acme" "acme" "free" 0]) "id1" =
       .ok { NewTenant "id1" "Acme" "acme" "free" 0 with
             status := Status.active, updatedAt := 4 }) :=
  ⟨C4_publish_failure_not_rolled_back.1 [] (fun _ _ => some (.extErr "queue down"))
      "Acme" "acme" "free" "id1" 0 (.extErr "queue down") (by simp) (by simp) rfl,
   C4_publish_failure_not_rolled_back.2 [NewTenant "id1" "Acme" "acme" "free" 0]
      (fun _ _ => some (.extErr "queue down")) "id1" Event.provision_complete 4
      (NewTenant "id1" "Acme" "acme" "free" 0) Status.active (.extErr "queue down")
      (by decide) (by decide) rfl (by decide)⟩

/-- C3: when a tenant with the slug already exists, Create fails with a
SlugConflictError carrying that slug and persists nothing. This holds on
the pre-check path (lookup succeeds: the bare SlugConflictError, state
untouched) and on the raced path where the pre-check lookup misses and
the store's create rejects the duplicate: there the surfaced error is the
service's wrap of the repository's SlugConflictError, which errors.As
still identifies as a SlugConflictError carrying the slug — not a generic
storage error — and the state is again untouched, so exactly the
pre-existing tenants with that slug remain. -/
theorem C3_slug_conflict_both_paths
    (db : Db) (pub : Publisher) (name slug plan id : String) (now : Nat) :
    (∀ u, sqliteGetBySlug db slug = .ok u →
      serviceCreate sqliteRepo db pub name slug plan id now =
        (.error (.slugConflict slug), db, []) ∧
      errAsSlugConflict (.slugConflict slug) = some slug) ∧
    (∀ u ∈ db, u.slug = slug →
      sqliteCreate db (NewTenant id name slug plan now) =
        .error (.slugConflict slug) ∧
      serviceCreate (withLookupErr .tenantNotFound) db pub name slug plan id now =
        (.error (.wrapped "creating tenant" (.slugConflict slug)), db, []) ∧
      errAsSlugConflict (.wrapped "creating tenant" (.slugConflict slug)) =
        some slug) := by
  constructor
  · intro u hu
    refine ⟨?_, rfl⟩
    unfold serviceCreate
    simp only [sqliteRepo, hu]
  · intro u hu huslug
    have hcr : sqliteCreate db (NewTenant id name slug plan now) =
        .error (.slugConflict slug) := by
      unfold sqliteCreate
      have hany : db.any (fun v =>
          v.id == (NewTenant id name slug plan now).id ||
          v.slug == (NewTenant id name slug plan now).slug) = true :=
        List.any_eq_true.mpr ⟨u, hu, by simp [NewTenant, huslug]⟩
      simp [hany, NewTenant]
      exact ⟨u, hu, fun _ => huslug⟩
    refine ⟨hcr, ?_, rfl⟩
    unfold serviceCreate createAfterPrecheck
    simp only [withLookupErr, sqliteRepo, hcr]

/-- Witness for C3: with acme already stored, a pre-check hit and a
raced store-level rejection both surface a SlugConflictError for acme
and leave the store as it was. -/
theorem C3_slug_conflict_both_paths_witness :
    (serviceCreate sqliteRepo [NewTenant "id1" "Acme" "acme" "free" 0]
        (fun _ _ => none) "Acme 2" "acme" "pro" "id2" 3 =
      (.error (.slugConflict "acme"), [NewTenant "id1" "Acme" "acme" "free" 0], []) ∧
     errAsSlugConflict (.slugConflict "acme") = some "acme") ∧
    (sqliteCreate [NewTenant "id1" "Acme" "acme" "free" 0]
        (NewTenant "id2" "Acme 2" "acme" "pro" 3) =
      .error (.slugConflict "acme") ∧
     serviceCreate (withLookupErr .tenantNotFound)
        [NewTenant "id1" "Acme" "acme" "free" 0]
        (fun _ _ => none) "Acme 2" "acme" "pro" "id2" 3 =
      (.error (.wrapped "creating tenant" (.slugConflict "acme")),
       [NewTenant "id1" "Acme" "acme" "free" 0], []) ∧
     errAsSlugConflict (.wrapped "creating tenant" (.slugConflict "acme")) =
       some "acme") :=
  ⟨(C3_slug_conflict_both_paths [NewTenant "id1" "Acme" "acme" "free" 0]
      (fun _ _ => none) "Acme 2" "acme" "pro" "id2" 3).1
      (NewTenant "id1" "Acme" "acme" "free" 0) (by decide),
   (C3_slug_conflict_both_paths [NewTenant "id1" "Acme" "acme" "free" 0]
      (fun _ _ => none) "Acme 2" "acme" "pro" "id2" 3).2
      (NewTenant "id1" "Acme" "acme" "free" 0) (by decide) rfl⟩

/-- C10: Create fails with a SlugConflictError only when the slug lookup
succeeds; every lookup error — whatever it is, including a genuine
storage failure — is treated as slug available, and Create proceeds with
id generation and persistence instead of surfacing the lookup failure. -/
theorem C10_lookup_error_treated_as_available
    {σ : Type} (R : Repo σ) (db : σ) (pub : Publisher)
    (name slug plan id : String) (now : Nat) :
    (∀ u, R.getBySlug db slug = .ok u →
      serviceCreate R db pub name slug plan id now =
        (.error (.slugConflict slug), db, [])) ∧
    (∀ e, R.getBySlug db slug = .error e →
      serviceCreate R db pub name slug plan id now =
        createAfterPrecheck R db pub name slug plan id now) := by
  constructor
  · intro u hu
    unfold serviceCreate
    simp only [hu]
  · intro e he
    unfold serviceCreate
    simp only [he]

/-- Witness for C10: a repository whose slug lookup fails with a storage
error; Create still persists the tenant and succeeds. -/
theorem C10_lookup_error_treated_as_available_witness :
    serviceCreate (withLookupErr (.extErr "disk failure")) [] (fun _ _ => none)
        "Acme" "acme" "free" "id1" 0 =
      createAfterPrecheck (withLookupErr (.extErr "disk failure")) []
        (fun _ _ => none) "Acme" "acme" "free" "id1" 0 ∧
    createAfterPrecheck (withLookupErr (.extErr "disk failure")) []
        (fun _ _ => none) "Acme" "acme" "free" "id1" 0 =
      (.ok (NewTenant "id1" "Acme" "acme" "free" 0),
       [NewTenant "id1" "Acme" "acme" "free" 0],
       [(Event.provision_complete, NewTenant "id1" "Acme" "acme" "free" 0)]) :=
  ⟨(C10_lookup_error_treated_as_available (withLookupErr (.extErr "disk failure"))
      [] (fun _ _ => none) "Acme" "acme" "free" "id1" 0).2
      (.extErr "disk failure") rfl,
   by decide⟩

/-- The claim's filter criterion: when a status is given the tenant's
status must match it; no criterion matches everything. -/
def statusMatches : Option Status → Tenant → Bool
  | some s, t => t.status == s
  | none, _ => true

/-- The claim's reading of List, stated independently of the SQL query
construction: the tenants matching the filter, sorted
newest-created-first, with the filter's offset skipped and, when a
positive limit is given, at most limit rows returned. -/
def listSpec (db : Db) (f : ListFilter) : List Tenant :=
  let page :=
    (List.insertionSort byCreatedDesc
      (db.filter (fun t => statusMatches f.status t))).drop f.offset.toNat
  if 0 < f.limit then page.take f.limit.toNat else page

/-- The paging tail only ever selects a sublist. -/
theorem sqlitePage_sublist (l : List Tenant) (f : ListFilter) :
    List.Sublist (sqlitePage l f) l := by
  unfold sqlitePage
  have h1 : List.Sublist (if 0 < f.offset then l.drop f.offset.toNat else l) l := by
    by_cases ho : 0 < f.offset
    · simp only [ho, if_true]
      exact List.drop_sublist _ _
    · simp only [ho, if_false]
      exact List.Sublist.refl l
  by_cases hl : 0 < f.limit
  · simp only [hl, if_true]
    exact (List.take_sublist _ _).trans h1
  · simp only [hl, if_false]
    exact h1

/-- The SQL query realizes the claim's description of List. -/
theorem sqliteList_eq_listSpec (db : Db) (f : ListFilter) :
    sqliteList db f = listSpec db f := by
  obtain ⟨os, lim, off⟩ := f
  unfold sqliteList sqlitePage sqliteRows listSpec
  cases os with
  | none =>
    simp only [statusMatches, List.filter_true]
    by_cases ho : (0 : Int) < off
    · simp [ho]
    · simp [ho, Int.toNat_of_nonpos (le_of_not_lt ho)]
  | some s =>
    simp only [statusMatches]
    by_cases ho : (0 : Int) < off
    · simp [ho]
    · simp [ho, Int.toNat_of_nonpos (le_of_not_lt ho)]

/-- C9 counterexample: with one stored tenant and the filter carrying
no status, limit 0 and offset 1, the built query places OFFSET without
LIMIT; SQLite rejects it, so List fails with the wrapped
"listing tenants" error instead of returning the page the claim
describes (the empty page left after skipping one row). -/
theorem C9_list_counterexample :
    serviceList sqliteRepo [NewTenant "a" "A" "a" "free" 0]
        { status := none, limit := 0, offset := 1 } =
      .error (.wrapped "listing tenants" (.extErr "near OFFSET: syntax error")) ∧
    serviceList sqliteRepo [NewTenant "a" "A" "a" "free" 0]
        { status := none, limit := 0, offset := 1 } ≠
      .ok (listSpec [NewTenant "a" "A" "a" "free" 0]
        { status := none, limit := 0, offset := 1 }) := by
  decide

/-- C9 as amended: for every filter whose built query SQLite accepts —
a positive limit, or no positive offset — List succeeds (empty results
included) with exactly the claim's filter-sort-paginate description:
only stored tenants matching the status criterion, ordered
newest-created-first, offset and limit applied, and with no criteria
all tenants; but a positive offset without a positive limit makes the
built query ill-formed and List fails with the wrapped
"listing tenants" error. -/
theorem C9_list_filter_order_paginate (db : Db) (f : ListFilter) :
    ((0 < f.limit ∨ f.offset ≤ 0) →
      serviceList sqliteRepo db f = .ok (sqliteList db f) ∧
      sqliteList db f = listSpec db f ∧
      List.Sorted byCreatedDesc (sqliteList db f) ∧
      (∀ t ∈ sqliteList db f, t ∈ db ∧ statusMatches f.status t = true) ∧
      (f.status = none → f.limit = 0 → f.offset = 0 →
        List.Perm (sqliteList db f) db)) ∧
    (f.limit ≤ 0 → 0 < f.offset →
      serviceList sqliteRepo db f =
        .error (.wrapped "listing tenants" (.extErr "near OFFSET: syntax error"))) := by
  constructor
  · intro hok
    have hcond : ¬(0 < f.offset ∧ ¬ 0 < f.limit) := by
      rcases hok with h | h
      · exact fun hc => hc.2 h
      · exact fun hc => absurd hc.1 (not_lt.mpr h)
    refine ⟨?_, sqliteList_eq_listSpec db f, ?_, ?_, ?_⟩
    · unfold serviceList sqliteRepo sqliteListE
      simp only [hcond, if_false]
    · exact List.Pairwise.sublist (sqlitePage_sublist _ f)
        (List.sorted_insertionSort byCreatedDesc (sqliteRows db f))
    · intro t ht
      have h1 : t ∈ List.insertionSort byCreatedDesc (sqliteRows db f) :=
        (sqlitePage_sublist _ f).subset ht
      have h2 : t ∈ sqliteRows db f :=
        (List.perm_insertionSort byCreatedDesc (sqliteRows db f)).subset h1
      unfold sqliteRows at h2
      cases hs : f.status with
      | none =>
        rw [hs] at h2
        exact ⟨h2, rfl⟩
      | some s =>
        rw [hs] at h2
        have h3 := List.mem_filter.mp h2
        exact ⟨h3.1, h3.2⟩
    · intro hs hl ho
      unfold sqliteList sqlitePage sqliteRows
      rw [hs, hl, ho]
      simp only [lt_self_iff_false, if_false]
      exact List.perm_insertionSort byCreatedDesc db
  · intro hl ho
    have hcond : 0 < f.offset ∧ ¬ 0 < f.limit := ⟨ho, not_lt.mpr hl⟩
    unfold serviceList sqliteRepo sqliteListE
    exact if_pos hcond

/-- Witness for C9: two tenants created at instants 0 and 5; an empty
filter lists both, newest first; the filter with offset 1 and limit 0
makes List fail with the wrapped syntax error. -/
theorem C9_list_filter_order_paginate_witness :
    (serviceList sqliteRepo
        [NewTenant "a" "A" "a" "free" 0, NewTenant "b" "B" "b" "free" 5]
        { status := none, limit := 0, offset := 0 } =
      .ok (sqliteList
        [NewTenant "a" "A" "a" "free" 0, NewTenant "b" "B" "b" "free" 5]
        { status := none, limit := 0, offset := 0 })) ∧
    List.Perm (sqliteList
        [NewTenant "a" "A" "a" "free" 0, NewTenant "b" "B" "b" "free" 5]
        { status := none, limit := 0, offset := 0 })
      [NewTenant "a" "A" "a" "free" 0, NewTenant "b" "B" "b" "free" 5] ∧
    sqliteList [NewTenant "a" "A" "a" "free" 0, NewTenant "b" "B" "b" "free" 5]
        { status := none, limit := 0, offset := 0 } =
      [NewTenant "b" "B" "b" "free" 5, NewTenant "a" "A" "a" "free" 0] ∧
    serviceList sqliteRepo [NewTenant "c" "C" "c" "free" 0]
        { status := none, limit := 0, offset := 1 } =
      .error (.wrapped "listing tenants" (.extErr "near OFFSET: syntax error")) :=
  ⟨((C9_list_filter_order_paginate
      [NewTenant "a" "A" "a" "free" 0, NewTenant "b" "B" "b" "free" 5]
      { status := none, limit := 0, offset := 0 }).1 (Or.inr le_rfl)).1,
   ((C9_list_filter_order_paginate
      [NewTenant "a" "A" "a" "free" 0, NewTenant "b" "B" "b" "free" 5]
      { status := none, limit := 0, offset := 0 }).1 (Or.inr le_rfl)).2.2.2.2
      rfl rfl rfl,
   by decide,
   (C9_list_filter_order_paginate [NewTenant "c" "C" "c" "free" 0]
      { status := none, limit := 0, offset := 1 }).2 le_rfl (by decide)⟩

end Tenantiq
